import Mathlib

/-!
Verification development for the slothunter license backend.

Shallow embedding of the security core: license-key generation and format
validation, HMAC request signing/verification, the fixed-window rate
limiter, JWT issuance/verification, and the device-binding state machine
with its HTTP route handlers.  Machine integers are modelled as `Nat`/`Int`;
the database is modelled as explicit state passed through each operation;
cryptographic primitives (HMAC-SHA256, random bytes) are abstracted as
function parameters or recorded symbolically.
-/

namespace SlotHunter

/-! ## License key generation (license key utility module) -/

/-- One uppercase hexadecimal digit of a nibble: 0-9 then A-F.
Mirrors `bytes.toString('hex').toUpperCase()` applied digit-wise. -/
def hexUpperDigit (n : Nat) : Char :=
  let m := n % 16
  if m < 10 then Char.ofNat (48 + m) else Char.ofNat (55 + m)

/-- The two uppercase hex characters of one byte (high nibble first). -/
def byteToHexUpper (b : Nat) : List Char :=
  [hexUpperDigit (b / 16), hexUpperDigit b]

/-- Uppercase hex encoding of a byte list, as in
`randomBytes(12).toString('hex').toUpperCase()`. -/
def bytesToHexUpper (bs : List Nat) : List Char :=
  (bs.map byteToHexUpper).flatten

/-- Function `generateLicenseKey`: the 12 random bytes are the argument (the
`randomBytes(12)` call abstracted); the key is
`SH-` + the first four 4-character groups of the uppercase hex encoding. -/
def generateLicenseKey (bytes : List Nat) : String :=
  let hex := bytesToHexUpper bytes
  String.mk
    ('S' :: 'H' :: '-' ::
      (hex.take 4 ++ '-' ::
        ((hex.drop 4).take 4 ++ '-' ::
          ((hex.drop 8).take 4 ++ '-' :: (hex.drop 12).take 4))))

/-- Character class `[A-Z0-9]` of the validation regex. -/
def isUpperAlnum (c : Char) : Bool :=
  ('A' ≤ c && c ≤ 'Z') || ('0' ≤ c && c ≤ '9')

/-- Function `isValidLicenseKeyFormat`: matches
`^SH-[A-Z0-9]{4}-[A-Z0-9]{4}-[A-Z0-9]{4}-[A-Z0-9]{4}$`. -/
def isValidLicenseKeyFormat (key : String) : Bool :=
  match key.toList with
  | ['S', 'H', '-', a1, a2, a3, a4, '-', b1, b2, b3, b4, '-',
      c1, c2, c3, c4, '-', d1, d2, d3, d4] =>
    [a1, a2, a3, a4, b1, b2, b3, b4, c1, c2, c3, c4, d1, d2, d3, d4].all
      isUpperAlnum
  | _ => false

theorem isUpperAlnum_hexUpperDigit (n : Nat) :
    isUpperAlnum (hexUpperDigit n) = true := by
  unfold hexUpperDigit
  have h : n % 16 < 16 := Nat.mod_lt _ (by omega)
  interval_cases h' : n % 16 <;> decide

/-- C10: every key produced by `generateLicenseKey` from its 12 random
bytes matches `SH-XXXX-XXXX-XXXX-XXXX` with every `X` in `[A-Z0-9]`, so
`isValidLicenseKeyFormat` accepts it. -/
theorem generateLicenseKey_isValidFormat (bytes : List Nat)
    (h : bytes.length = 12) :
    isValidLicenseKeyFormat (generateLicenseKey bytes) = true := by
  obtain ⟨b1, b2, b3, b4, b5, b6, b7, b8, b9, b10, b11, b12, rfl⟩ :
      ∃ a1 a2 a3 a4 a5 a6 a7 a8 a9 a10 a11 a12,
        bytes = [a1, a2, a3, a4, a5, a6, a7, a8, a9, a10, a11, a12] := by
    match bytes, h with
    | [a1, a2, a3, a4, a5, a6, a7, a8, a9, a10, a11, a12], _ =>
      exact ⟨a1, a2, a3, a4, a5, a6, a7, a8, a9, a10, a11, a12, rfl⟩
  simp [generateLicenseKey, bytesToHexUpper, byteToHexUpper,
    isValidLicenseKeyFormat, isUpperAlnum_hexUpperDigit]

/-- Witness for C10 at a concrete byte vector. -/
theorem generateLicenseKey_isValidFormat_witness :
    isValidLicenseKeyFormat
      (generateLicenseKey [0, 15, 16, 31, 100, 200, 255, 1, 2, 3, 4, 5]) =
      true :=
  generateLicenseKey_isValidFormat
    [0, 15, 16, 31, 100, 200, 255, 1, 2, 3, 4, 5] (by decide)

/-! ## HMAC signed request envelopes (src/lib/security/hmac.ts)

`createHmac('sha256', secret).update(msg).digest('hex')` is abstracted as a
function parameter `hmac : String → String → String` (secret, then
message); both signer and verifier use the same function, which is all the
claims here depend on.  `timingSafeEqual` over the hex decodings of two hex
strings (with the try/catch returning false on a length mismatch) is
modelled as string equality of the hex strings. -/

structure SignedRequest where
  payload : String
  timestamp : Int
  signature : String
  deriving Repr, DecidableEq

/-- Canonical message `JSON.stringify(\x7b payload, timestamp \x7d)`:
both sides sign, with the stable field order of the source. -/
def canonicalMessage (payload : String) (timestamp : Int) : String :=
  "\x7b\"payload\":" ++ payload ++ ",\"timestamp\":" ++ toString timestamp
    ++ "\x7d"

/-- Function `signRequest`: stamps the current time and signs the canonical
message. -/
def signRequest (hmac : String → String → String) (payload : String)
    (apiSecret : String) (now : Int) : SignedRequest :=
  { payload := payload
    timestamp := now
    signature := hmac apiSecret (canonicalMessage payload now) }

/-- Function `verifyRequest`: rejects a stale (`age > maxAge`) or future
(`age < 0`) timestamp, then recomputes the expected signature and
compares. -/
def verifyRequest (hmac : String → String → String) (request : SignedRequest)
    (apiSecret : String) (maxAge : Int) (now : Int) : Bool :=
  let age := now - request.timestamp
  if age > maxAge || age < 0 then
    false
  else
    request.signature ==
      hmac apiSecret (canonicalMessage request.payload request.timestamp)

/-- C4: verifying an envelope just produced with the same secret at the
same instant succeeds, and any envelope whose timestamp is in the future
or older than `maxAge` is rejected regardless of its signature. -/
theorem verifyRequest_signRequest_roundtrip
    (hmac : String → String → String) (payload apiSecret : String)
    (maxAge now : Int) (hAge : 0 ≤ maxAge) :
    verifyRequest hmac (signRequest hmac payload apiSecret now) apiSecret
        maxAge now = true ∧
      ∀ request : SignedRequest,
        (now - request.timestamp > maxAge ∨ now - request.timestamp < 0) →
          verifyRequest hmac request apiSecret maxAge now = false := by
  constructor
  · simp [verifyRequest, signRequest]
    omega
  · intro request hStale
    simp only [verifyRequest]
    rcases hStale with h | h <;> simp [h]

/-- Witness for C4 at a concrete hmac function, payload, secret and
clock. -/
theorem verifyRequest_signRequest_roundtrip_witness :
    verifyRequest (fun s m => s ++ m)
        (signRequest (fun s m => s ++ m) "p" "secret" 5) "secret" 60000 5 =
        true ∧
      ∀ request : SignedRequest,
        ((5 : Int) - request.timestamp > 60000 ∨
            (5 : Int) - request.timestamp < 0) →
          verifyRequest (fun s m => s ++ m) request "secret" 60000 5 =
            false :=
  verifyRequest_signRequest_roundtrip (fun s m => s ++ m) "p" "secret"
    60000 5 (by decide)

/-! ## Rate limiter (src/lib/security/hmac.ts, rate-limit module)

The per-key entry of the in-memory `rateLimitCache` and of the durable
`rateLimit` table, for one fixed `prefix:identifier` key.  The prisma
calls can throw; the `getFromSupabase` / `saveToSupabase` wrappers catch
every error (returning `null` / leaving the row unchanged), which is
modelled with an explicit failure flag on the raw store operation. -/

structure RateLimitEntry where
  count : Nat
  resetAt : Int
  deriving Repr, DecidableEq

structure RateLimitConfig where
  limit : Nat
  windowMs : Int
  deriving Repr, DecidableEq

/-- The state seen by `checkRateLimit` for one key: the in-memory cache
slot and the durable-store row. -/
structure RateLimitState where
  cache : Option RateLimitEntry
  db : Option RateLimitEntry
  deriving Repr, DecidableEq

structure RateLimitResult where
  success : Bool
  limit : Nat
  remaining : Nat
  reset : Int
  deriving Repr, DecidableEq

/-- Raw `prisma.rateLimit.findUnique`: the raw durable read, which may
throw. -/
def prismaRateLimitFind (readFails : Bool) (db : Option RateLimitEntry) :
    Except String (Option RateLimitEntry) :=
  if readFails then Except.error "db read failed" else Except.ok db

/-- Raw `prisma.rateLimit.upsert`: the raw durable write, which may throw. -/
def prismaRateLimitUpsert (writeFails : Bool) (_db : Option RateLimitEntry)
    (entry : RateLimitEntry) : Except String (Option RateLimitEntry) :=
  if writeFails then Except.error "db write failed" else Except.ok (some entry)

/-- Function `getFromSupabase`: catches any store error (→ `null`) and drops rows
whose window has already ended. -/
def getFromSupabase (readFails : Bool) (db : Option RateLimitEntry)
    (now : Int) : Option RateLimitEntry :=
  match prismaRateLimitFind readFails db with
  | Except.error _ => none
  | Except.ok none => none
  | Except.ok (some row) => if row.resetAt < now then none else some row

/-- Function `saveToSupabase`: catches any store error, leaving the row as it
was. -/
def saveToSupabase (writeFails : Bool) (db : Option RateLimitEntry)
    (entry : RateLimitEntry) : Option RateLimitEntry :=
  match prismaRateLimitUpsert writeFails db entry with
  | Except.error _ => db
  | Except.ok db' => db'

/-- Function `checkRateLimit`: fixed-window counting.  Consult the cache; on a miss
or an elapsed window fall back to the durable store, else open a fresh
window (persisting it best-effort); then increment the counter, decide
`success = count <= limit`, and write the entry back to cache and --
best-effort -- to the durable store. -/
def checkRateLimit (readFails writeFails : Bool) (st : RateLimitState)
    (config : RateLimitConfig) (now : Int) :
    RateLimitResult × RateLimitState :=
  let stale := match st.cache with
    | none => true
    | some e => decide (e.resetAt < now)
  let entryAndDb : RateLimitEntry × Option RateLimitEntry :=
    if stale then
      match getFromSupabase readFails st.db now with
      | some dbEntry =>
        if dbEntry.resetAt > now then (dbEntry, st.db)
        else
          let fresh : RateLimitEntry := ⟨0, now + config.windowMs⟩
          (fresh, saveToSupabase writeFails st.db fresh)
      | none =>
        let fresh : RateLimitEntry := ⟨0, now + config.windowMs⟩
        (fresh, saveToSupabase writeFails st.db fresh)
    else
      (st.cache.getD ⟨0, now + config.windowMs⟩, st.db)
  let entry : RateLimitEntry :=
    ⟨entryAndDb.1.count + 1, entryAndDb.1.resetAt⟩
  let success := decide (entry.count ≤ config.limit)
  let remaining := config.limit - entry.count
  let db' := saveToSupabase writeFails entryAndDb.2 entry
  (⟨success, config.limit, remaining, entry.resetAt⟩, ⟨some entry, db'⟩)

/-- Sequential runs of `checkRateLimit` (no store failures) at the given
list of call times, returning the final state and each call's result. -/
def rateLimitRun (config : RateLimitConfig) (st : RateLimitState) :
    List Int → RateLimitState × List RateLimitResult
  | [] => (st, [])
  | t :: ts =>
    let out := checkRateLimit false false st config t
    let rest := rateLimitRun config out.2 ts
    (rest.1, out.1 :: rest.2)

theorem checkRateLimit_cache_live (c : Nat) (resetAt : Int)
    (db : Option RateLimitEntry) (config : RateLimitConfig) (now : Int)
    (h : ¬ resetAt < now) :
    checkRateLimit false false ⟨some ⟨c, resetAt⟩, db⟩ config now =
      (⟨decide (c + 1 ≤ config.limit), config.limit,
          config.limit - (c + 1), resetAt⟩,
        ⟨some ⟨c + 1, resetAt⟩, some ⟨c + 1, resetAt⟩⟩) := by
  simp [checkRateLimit, saveToSupabase, prismaRateLimitUpsert, h]

theorem checkRateLimit_window_elapsed (st : RateLimitState)
    (config : RateLimitConfig) (now : Int)
    (hc : ∀ e, st.cache = some e → e.resetAt < now)
    (hd : ∀ e, st.db = some e → e.resetAt < now) :
    checkRateLimit false false st config now =
      (⟨decide (1 ≤ config.limit), config.limit, config.limit - 1,
          now + config.windowMs⟩,
        ⟨some ⟨1, now + config.windowMs⟩,
          some ⟨1, now + config.windowMs⟩⟩) := by
  have hstale : (match st.cache with
      | none => true
      | some e => decide (e.resetAt < now)) = true := by
    cases hcache : st.cache with
    | none => rfl
    | some e => simpa using hc e hcache
  cases hdb : st.db with
  | none =>
    simp [checkRateLimit, hstale, hdb, getFromSupabase, prismaRateLimitFind,
      saveToSupabase, prismaRateLimitUpsert]
  | some e =>
    have := hd e hdb
    simp [checkRateLimit, hstale, hdb, getFromSupabase, prismaRateLimitFind,
      saveToSupabase, prismaRateLimitUpsert, this]

/-- The result `checkRateLimit` reports when the incremented counter is
`k` in a window ending at `resetAt`. -/
def rateLimitReport (config : RateLimitConfig) (resetAt : Int) (k : Nat) :
    RateLimitResult :=
  ⟨decide (k ≤ config.limit), config.limit, config.limit - k, resetAt⟩

theorem rateLimitRun_window (config : RateLimitConfig) (resetAt : Int)
    (ts : List Int) (hts : ∀ t ∈ ts, ¬ resetAt < t) :
    ∀ c : Nat,
      rateLimitRun config ⟨some ⟨c, resetAt⟩, some ⟨c, resetAt⟩⟩ ts =
        (⟨some ⟨c + ts.length, resetAt⟩, some ⟨c + ts.length, resetAt⟩⟩,
          (List.range ts.length).map fun i =>
            rateLimitReport config resetAt (c + i + 1)) := by
  induction ts with
  | nil => intro c; simp [rateLimitRun]
  | cons t ts ih =>
    intro c
    have hlive : ¬ resetAt < t := hts t (by simp)
    have hrest : ∀ t' ∈ ts, ¬ resetAt < t' := fun t' ht' =>
      hts t' (by simp [ht'])
    simp only [rateLimitRun, checkRateLimit_cache_live c resetAt _ config t
      hlive, ih hrest (c + 1)]
    simp only [Prod.mk.injEq, RateLimitState.mk.injEq, List.length_cons]
    refine ⟨⟨?_, ?_⟩, ?_⟩
    · have h1 : c + 1 + ts.length = c + (ts.length + 1) := by omega
      rw [h1]
    · have h1 : c + 1 + ts.length = c + (ts.length + 1) := by omega
      rw [h1]
    · rw [List.range_succ_eq_map, List.map_cons, List.map_map]
      have h0 : rateLimitReport config resetAt (c + 0 + 1) =
          rateLimitReport config resetAt (c + 1) := by
        have : c + 0 + 1 = c + 1 := by omega
        rw [this]
      rw [h0]
      refine congrArg _ (List.map_congr_left fun i _ => ?_)
      show rateLimitReport config resetAt (c + 1 + i + 1) =
        rateLimitReport config resetAt (c + (i + 1) + 1)
      have : c + 1 + i + 1 = c + (i + 1) + 1 := by omega
      rw [this]

/-- C5: from an empty state, with limit `N` and window `W`, the first `N`
calls for one identifier all return `success = true`; an `(N+1)`th call
still inside the window returns `success = false`; and the first call
after the window's `resetAt` has passed opens a new window and returns
`success = true` with `remaining = N - 1`. -/
theorem checkRateLimit_fixed_window (N : Nat) (W t0 : Int) (ts : List Int)
    (t1 t2 : Int) (hN : 0 < N) (hlen : ts.length = N - 1)
    (hts : ∀ t ∈ ts, ¬ t0 + W < t) (h1 : ¬ t0 + W < t1)
    (h2 : t0 + W < t2) :
    let config : RateLimitConfig := ⟨N, W⟩
    let firstRun := rateLimitRun config ⟨none, none⟩ (t0 :: ts)
    let overCall := checkRateLimit false false firstRun.1 config t1
    let resetCall := checkRateLimit false false overCall.2 config t2
    (∀ r ∈ firstRun.2, r.success = true) ∧
      overCall.1.success = false ∧
      resetCall.1.success = true ∧
      resetCall.1.remaining = N - 1 ∧
      resetCall.1.reset = t2 + W ∧
      resetCall.2.cache = some ⟨1, t2 + W⟩ := by
  intro config firstRun overCall resetCall
  have hfirst : firstRun =
      (⟨some ⟨N, t0 + W⟩, some ⟨N, t0 + W⟩⟩,
        rateLimitReport config (t0 + W) 1 ::
          (List.range ts.length).map fun i =>
            rateLimitReport config (t0 + W) (1 + i + 1)) := by
    show rateLimitRun config ⟨none, none⟩ (t0 :: ts) = _
    simp only [rateLimitRun]
    rw [checkRateLimit_window_elapsed ⟨none, none⟩ config t0
      (by intro e he; simp at he) (by intro e he; simp at he)]
    rw [rateLimitRun_window config (t0 + W) ts hts 1]
    have hNlen : 1 + ts.length = N := by omega
    simp [rateLimitReport, hNlen]
  have hover : overCall =
      (rateLimitReport config (t0 + W) (N + 1),
        ⟨some ⟨N + 1, t0 + W⟩, some ⟨N + 1, t0 + W⟩⟩) := by
    show checkRateLimit false false firstRun.1 config t1 = _
    rw [hfirst]
    exact checkRateLimit_cache_live N (t0 + W) _ config t1 h1
  have hreset : resetCall =
      (rateLimitReport config (t2 + W) 1,
        ⟨some ⟨1, t2 + W⟩, some ⟨1, t2 + W⟩⟩) := by
    show checkRateLimit false false overCall.2 config t2 = _
    rw [hover]
    rw [checkRateLimit_window_elapsed _ config t2 ?_ ?_]
    · simp [rateLimitReport]
    · intro e he
      simp at he
      rw [← he]
      exact h2
    · intro e he
      simp at he
      rw [← he]
      exact h2
  refine ⟨?_, ?_, ?_, ?_, ?_, ?_⟩
  · rw [hfirst]
    intro r hr
    simp only [List.mem_cons, List.mem_map, List.mem_range] at hr
    rcases hr with rfl | ⟨i, hi, rfl⟩
    · simp [rateLimitReport]; omega
    · simp [rateLimitReport]; omega
  · rw [hover]; simp [rateLimitReport]
  · rw [hreset]; simp [rateLimitReport]; omega
  · rw [hreset]; simp [rateLimitReport]
  · rw [hreset]; simp [rateLimitReport]
  · rw [hreset]

/-- Witness for C5 with `N = 2`, `W = 10`, calls at 0 and 3, the third
call at 5 and the post-window call at 11. -/
theorem checkRateLimit_fixed_window_witness :
    let config : RateLimitConfig := ⟨2, 10⟩
    let firstRun := rateLimitRun config ⟨none, none⟩ (0 :: [3])
    let overCall := checkRateLimit false false firstRun.1 config 5
    let resetCall := checkRateLimit false false overCall.2 config 11
    (∀ r ∈ firstRun.2, r.success = true) ∧
      overCall.1.success = false ∧
      resetCall.1.success = true ∧
      resetCall.1.remaining = 2 - 1 ∧
      resetCall.1.reset = 11 + 10 ∧
      resetCall.2.cache = some ⟨1, 11 + 10⟩ :=
  checkRateLimit_fixed_window 2 10 0 [3] 5 11 (by decide) (by decide)
    (by decide) (by decide) (by decide)

/-- C8: failures of the durable-store read or write inside
`checkRateLimit` are swallowed by the `getFromSupabase` /
`saveToSupabase` wrappers (the raw prisma operations error, the wrappers
return `null` / leave the row as it was), and the returned decision is
the in-memory one: it does not depend on the write flag at all. -/
theorem checkRateLimit_storeFailure_bestEffort :
    (∀ readFails writeFails st config (now : Int),
        (checkRateLimit readFails writeFails st config now).1 =
          (checkRateLimit readFails false st config now).1) ∧
      (∀ db (now : Int), prismaRateLimitFind true db = Except.error
          "db read failed" ∧ getFromSupabase true db now = none) ∧
      (∀ db entry, prismaRateLimitUpsert true db entry = Except.error
          "db write failed" ∧ saveToSupabase true db entry = db) := by
  refine ⟨?_, ?_, ?_⟩
  · intro readFails writeFails st config now
    simp only [checkRateLimit]
    cases st.cache with
    | none =>
      cases h : getFromSupabase readFails st.db now with
      | none => simp [h]
      | some e => by_cases he : e.resetAt > now <;> simp [h, he]
    | some e =>
      by_cases hstale : e.resetAt < now
      · cases h : getFromSupabase readFails st.db now with
        | none => simp [h, hstale]
        | some e' => by_cases he : e'.resetAt > now <;> simp [h, he, hstale]
      · simp [hstale]
  · intro db now
    exact ⟨rfl, rfl⟩
  · intro db entry
    exact ⟨rfl, by simp [saveToSupabase, prismaRateLimitUpsert]⟩

/-! ## JWT issuance and verification (jwt module)

`jose.SignJWT ... .sign(JWT_SECRET)` and `jose.jwtVerify(token,
JWT_SECRET, \x7b issuer, audience \x7d)` are modelled symbolically: a
token records its claims, registered claims and the secret it was signed
with; `jwtVerify` succeeds exactly when the secret matches and issuer,
audience and expiry check out.  The module-level `JWT_SECRET` constant is
passed explicitly as `secret`. -/

def JWT_ISSUER : String := "slothunter"

def JWT_AUDIENCE : String := "slothunter-extension"

structure JWTClaims where
  licenseId : String
  userId : String
  email : Option String
  deriving Repr, DecidableEq

/-- A signed JWT as jose produces it: payload claims (including the
optional `type` claim added by `signRefreshToken`), registered claims,
and the signing secret standing in for the HMAC-SHA256 signature. -/
structure JoseToken where
  licenseId : String
  userId : String
  email : Option String
  tokenType : Option String
  iat : Int
  exp : Int
  iss : String
  aud : String
  signedWith : String
  deriving Repr, DecidableEq

/-- The claim set `verifyJWT` returns. -/
structure JWTPayload where
  licenseId : String
  userId : String
  email : Option String
  iat : Option Int
  exp : Option Int
  deriving Repr, DecidableEq

/-- Function `signAccessToken`: 1-hour expiry, fixed issuer and audience, no
`type` claim. -/
def signAccessToken (secret : String) (payload : JWTClaims) (now : Int) :
    JoseToken :=
  { licenseId := payload.licenseId
    userId := payload.userId
    email := payload.email
    tokenType := none
    iat := now
    exp := now + 3600
    iss := JWT_ISSUER
    aud := JWT_AUDIENCE
    signedWith := secret }

/-- Function `signRefreshToken`: 7-day expiry, same issuer/audience/secret, and
the extra `type: 'refresh'` claim. -/
def signRefreshToken (secret : String) (payload : JWTClaims) (now : Int) :
    JoseToken :=
  { licenseId := payload.licenseId
    userId := payload.userId
    email := payload.email
    tokenType := some "refresh"
    iat := now
    exp := now + 7 * 86400
    iss := JWT_ISSUER
    aud := JWT_AUDIENCE
    signedWith := secret }

/-- Model of `jose.jwtVerify` with the issuer/audience options: fails closed on a
signature, issuer or audience mismatch or an elapsed expiry. -/
def joseJwtVerify (secret : String) (token : JoseToken) (now : Int) :
    Option JoseToken :=
  if token.signedWith = secret ∧ token.iss = JWT_ISSUER ∧
      token.aud = JWT_AUDIENCE ∧ now < token.exp then
    some token
  else
    none

/-- Function `verifyJWT`: wraps `jose.jwtVerify` and projects the payload; the
catch turns any verification error into `null`.  Note: the `type` claim
is not inspected. -/
def verifyJWT (secret : String) (token : JoseToken) (now : Int) :
    Option JWTPayload :=
  match joseJwtVerify secret token now with
  | none => none
  | some p =>
    some ⟨p.licenseId, p.userId, p.email, some p.iat, some p.exp⟩

/-- C6 (code bug): a refresh token carries the `type=refresh` marker, yet
`verifyJWT` — the access-token verification position — accepts it and
returns its claims instead of rejecting it: the marker is never
inspected.  Evaluated at the concrete failing input `licenseId = "lic"`,
`userId = "usr"`, secret `"k"`, issued and verified at time 0. -/
theorem verifyJWT_accepts_refreshToken :
    (signRefreshToken "k" ⟨"lic", "usr", none⟩ 0).tokenType =
        some "refresh" ∧
      verifyJWT "k" (signRefreshToken "k" ⟨"lic", "usr", none⟩ 0) 0 =
        some ⟨"lic", "usr", none, some 0, some 604800⟩ := by
  constructor
  · rfl
  · simp [verifyJWT, joseJwtVerify, signRefreshToken, JWT_ISSUER,
      JWT_AUDIENCE]

/-! ## Device binding and license routes

The `License` row with the fields the security core reads and writes.
Database access is modelled by passing the (optionally found) row in and
the updated row out of each operation.  `bindDevice`'s persistence
failure (`catch` → `false`) is modelled by a `bindOk` flag at the call
sites.  Append-only log writes (validation log, swap log, audit log) do
not feed back into any decision here and are omitted. -/

inductive LicenseStatus
  | INACTIVE
  | ACTIVE
  | EXPIRED
  deriving Repr, DecidableEq

structure License where
  id : String
  userId : String
  userEmail : String
  status : LicenseStatus
  isBanned : Bool
  browserFingerprint : Option String
  hardwareFingerprint : Option String
  deviceName : Option String
  activationCount : Nat
  maxActivations : Nat
  expiresAt : Option Int
  lastValidatedAt : Option Int
  lastValidatedIp : Option String
  deriving Repr, DecidableEq

structure DeviceFingerprint where
  browserFingerprint : String
  hardwareFingerprint : Option String
  deriving Repr, DecidableEq

structure DeviceBindingResult where
  isValid : Bool
  isFirstActivation : Bool
  canSwap : Bool
  swapsRemaining : Int
  boundDevice : Option String
  errorCode : Option String
  deriving Repr, DecidableEq

/-- Function `checkDeviceBinding`: first-time activation when no fingerprint is
bound; exact-match success; otherwise a mismatch whose `errorCode`
distinguishes `DEVICE_MISMATCH` (a swap is still possible) from
`MAX_ACTIVATIONS_REACHED`. -/
def checkDeviceBinding (license : Option License)
    (fingerprint : DeviceFingerprint) : DeviceBindingResult :=
  match license with
  | none => ⟨false, false, false, 0, none, none⟩
  | some l =>
    match l.browserFingerprint with
    | none =>
      ⟨true, true, false, (l.maxActivations : Int) - l.activationCount,
        none, none⟩
    | some bound =>
      if bound = fingerprint.browserFingerprint then
        ⟨true, false, false,
          (l.maxActivations : Int) - l.activationCount, l.deviceName, none⟩
      else
        let canSwap := decide (l.activationCount < l.maxActivations)
        ⟨false, false, canSwap,
          max 0 ((l.maxActivations : Int) - l.activationCount),
          l.deviceName,
          some (if canSwap then "DEVICE_MISMATCH"
            else "MAX_ACTIVATIONS_REACHED")⟩

/-- Function `bindDevice` (success path of the prisma update): binds the
fingerprints and device name, sets `ACTIVE`, increments
`activationCount`, stamps the validation metadata. -/
def bindDevice (l : License) (fingerprint : DeviceFingerprint)
    (deviceName : Option String) (ip : String) (now : Int) : License :=
  { l with
    browserFingerprint := some fingerprint.browserFingerprint
    hardwareFingerprint := fingerprint.hardwareFingerprint
    deviceName := some (deviceName.getD "Unknown Device")
    status := LicenseStatus.ACTIVE
    activationCount := l.activationCount + 1
    lastValidatedAt := some now
    lastValidatedIp := some ip }

structure SwapResult where
  success : Bool
  error : Option String
  deriving Repr, DecidableEq

/-- Function `requestDeviceSwap`: requires a bound device and a free activation
slot, then re-binds the fingerprint and increments `activationCount`
(the appended swap-log row is not modelled). -/
def requestDeviceSwap (license : Option License)
    (newFingerprint : DeviceFingerprint) (ip : String) (now : Int) :
    SwapResult × Option License :=
  match license with
  | none => (⟨false, some "License not found"⟩, none)
  | some l =>
    match l.browserFingerprint with
    | none => (⟨false, some "No device bound to this license"⟩, some l)
    | some _ =>
      if l.activationCount ≥ l.maxActivations then
        (⟨false, some "Maximum device swaps reached"⟩, some l)
      else
        (⟨true, none⟩,
          some { l with
            browserFingerprint := some newFingerprint.browserFingerprint
            hardwareFingerprint := newFingerprint.hardwareFingerprint
            activationCount := l.activationCount + 1
            lastValidatedAt := some now
            lastValidatedIp := some ip })

/-- Shape of the `details` object of the validate route's device-mismatch response. -/
structure MismatchDetails where
  boundDevice : String
  canSwap : Bool
  swapsRemaining : Int
  deriving Repr, DecidableEq

inductive ValidateResponse
  | ok
  | err (code : String) (details : Option MismatchDetails)
  deriving Repr, DecidableEq

/-- Whether `expiresAt` is non-null and in the past
(`license.expiresAt < new Date()`). -/
def expiryPassed (l : License) (now : Int) : Bool :=
  match l.expiresAt with
  | some e => decide (e < now)
  | none => false

/-- The validate route (`POST`, license validation): banned check, lazy
expiry check, then the device-binding decision; on first activation it
binds the device (`bindOk` models the `bindDevice` persistence outcome);
on success it refreshes the validation metadata.  The request-transport
stages (rate limits, HMAC, payload shape) precede these checks and are
outside this state model. -/
def validateRoute (license : Option License)
    (fingerprint : DeviceFingerprint) (deviceName : Option String)
    (bindOk : Bool) (ip : String) (now : Int) :
    ValidateResponse × Option License :=
  match license with
  | none => (ValidateResponse.err "INVALID_LICENSE" none, none)
  | some l =>
    if l.isBanned then
      (ValidateResponse.err "LICENSE_BANNED" none, some l)
    else if l.status = LicenseStatus.EXPIRED || expiryPassed l now then
      (ValidateResponse.err "LICENSE_EXPIRED" none, some l)
    else
      let deviceCheck := checkDeviceBinding (some l) fingerprint
      if deviceCheck.isFirstActivation then
        if bindOk then
          (ValidateResponse.ok,
            some (bindDevice l fingerprint
              (some (deviceName.getD "Chrome Extension")) ip now))
        else
          (ValidateResponse.err "ACTIVATION_FAILED" none, some l)
      else if !deviceCheck.isValid then
        (ValidateResponse.err "DEVICE_MISMATCH"
            (some ⟨deviceCheck.boundDevice.getD "Unknown Device",
              deviceCheck.canSwap, deviceCheck.swapsRemaining⟩),
          some l)
      else
        (ValidateResponse.ok,
          some { l with
            lastValidatedAt := some now
            lastValidatedIp := some ip })

inductive ActivateResponse
  | ok (accessToken : JoseToken)
  | err (code : String)
  deriving Repr, DecidableEq

/-- The activate route (`POST`, first-time activation): banned check; an
already-`ACTIVE` license succeeds idempotently from its bound device and
is rejected with `ALREADY_ACTIVATED` from another; otherwise only an
`INACTIVE` license below its activation quota is bound. -/
def activateRoute (secret : String) (license : Option License)
    (fingerprint : DeviceFingerprint) (deviceName : Option String)
    (bindOk : Bool) (ip : String) (now : Int) :
    ActivateResponse × Option License :=
  match license with
  | none => (ActivateResponse.err "INVALID_LICENSE", none)
  | some l =>
    if l.isBanned then
      (ActivateResponse.err "LICENSE_BANNED", some l)
    else if l.status = LicenseStatus.ACTIVE then
      let boundElsewhere : Bool := match l.browserFingerprint with
        | some bound => decide (bound ≠ fingerprint.browserFingerprint)
        | none => false
      if boundElsewhere then
        (ActivateResponse.err "ALREADY_ACTIVATED", some l)
      else
        (ActivateResponse.ok
            (signAccessToken secret ⟨l.id, l.userId, some l.userEmail⟩ now),
          some l)
    else if l.status ≠ LicenseStatus.INACTIVE then
      (ActivateResponse.err "INVALID_STATUS", some l)
    else if l.activationCount ≥ l.maxActivations then
      (ActivateResponse.err "MAX_ACTIVATIONS", some l)
    else if bindOk then
      (ActivateResponse.ok
          (signAccessToken secret ⟨l.id, l.userId, some l.userEmail⟩ now),
        some (bindDevice l fingerprint
          (some (deviceName.getD "Chrome Extension")) ip now))
    else
      (ActivateResponse.err "ACTIVATION_FAILED", some l)

inductive SwapResponse
  | ok
  | err (code : String)
  deriving Repr, DecidableEq

/-- The device-swap route (`POST`): banned or non-`ACTIVE` licenses are
rejected, then `requestDeviceSwap` decides.  The per-license swap rate
limit precedes these checks and is outside this state model. -/
def deviceSwapRoute (license : Option License)
    (newFingerprint : DeviceFingerprint) (ip : String) (now : Int) :
    SwapResponse × Option License :=
  match license with
  | none => (SwapResponse.err "INVALID_LICENSE", none)
  | some l =>
    if l.isBanned || l.status ≠ LicenseStatus.ACTIVE then
      (SwapResponse.err "LICENSE_INACTIVE", some l)
    else
      let out := requestDeviceSwap (some l) newFingerprint ip now
      if out.1.success then (SwapResponse.ok, out.2)
      else (SwapResponse.err "SWAP_FAILED", out.2)

inductive ExtActivateResponse
  | ok (accessToken refreshToken : JoseToken)
  | err (message : String)
  deriving Repr, DecidableEq

/-- The extension activation route (`POST`, no HMAC): banned check,
`EXPIRED` status check, lazy expiry check that persists
`status = EXPIRED`, the validation-log device-limit check (its outcome
abstracted as `deviceLimitBlocked`, since it reads the append-only log),
then first activation binds the fingerprints without touching
`activationCount`, and both tokens are issued. -/
def extensionActivateRoute (secret : String) (license : Option License)
    (fingerprint : DeviceFingerprint) (deviceLimitBlocked : Bool)
    (now : Int) : ExtActivateResponse × Option License :=
  match license with
  | none =>
    (ExtActivateResponse.err "License not found. Please check your license key.",
      none)
  | some l =>
    if l.isBanned then
      (ExtActivateResponse.err "This license has been banned.", some l)
    else if l.status = LicenseStatus.EXPIRED then
      (ExtActivateResponse.err "This license has expired.", some l)
    else if expiryPassed l now then
      (ExtActivateResponse.err "This license has expired.",
        some { l with status := LicenseStatus.EXPIRED })
    else if deviceLimitBlocked then
      (ExtActivateResponse.err "Device limit reached", some l)
    else
      let l' := if l.status = LicenseStatus.INACTIVE then
          { l with
            status := LicenseStatus.ACTIVE
            browserFingerprint := some fingerprint.browserFingerprint
            hardwareFingerprint := fingerprint.hardwareFingerprint }
        else l
      (ExtActivateResponse.ok
          (signAccessToken secret ⟨l.id, l.userId, none⟩ now)
          (signRefreshToken secret ⟨l.id, l.userId, none⟩ now),
        some l')

inductive ConfigResponse
  | ok
  | err (message : String)
  deriving Repr, DecidableEq

/-- The config-delivery route (`GET`): after JWT verification the
license must exist, not be banned, and be `ACTIVE` (the config lookup and
ETag handling do not touch the license). -/
def configRoute (license : Option License) : ConfigResponse :=
  match license with
  | none => ConfigResponse.err "License is no longer valid"
  | some l =>
    if l.isBanned || l.status ≠ LicenseStatus.ACTIVE then
      ConfigResponse.err "License is no longer valid"
    else
      ConfigResponse.ok

/-! ## The activation-count invariant (C1) -/

/-- One client-visible operation that can mutate a license. -/
inductive LicenseOp
  | activateOp (fingerprint : DeviceFingerprint) (deviceName : Option String)
      (bindOk : Bool) (ip : String) (now : Int)
  | validateOp (fingerprint : DeviceFingerprint) (deviceName : Option String)
      (bindOk : Bool) (ip : String) (now : Int)
  | swapOp (fingerprint : DeviceFingerprint) (ip : String) (now : Int)
  | extActivateOp (fingerprint : DeviceFingerprint)
      (deviceLimitBlocked : Bool) (now : Int)

/-- The license state left behind by one route invocation (the token
secret does not influence the state). -/
def licenseStep (l : License) : LicenseOp → License
  | LicenseOp.activateOp fp dn ok ip now =>
    ((activateRoute "secret" (some l) fp dn ok ip now).2).getD l
  | LicenseOp.validateOp fp dn ok ip now =>
    ((validateRoute (some l) fp dn ok ip now).2).getD l
  | LicenseOp.swapOp fp ip now =>
    ((deviceSwapRoute (some l) fp ip now).2).getD l
  | LicenseOp.extActivateOp fp blocked now =>
    ((extensionActivateRoute "secret" (some l) fp blocked now).2).getD l

/-- The inductive invariant: the count is within quota, a license with no
bound fingerprint has count zero (it was never bound: only `bindDevice`
and the swap update increment, and both bind a fingerprint), and the
plan quota is at least one. -/
def LicenseInv (l : License) : Prop :=
  l.activationCount ≤ l.maxActivations ∧
    (l.browserFingerprint = none → l.activationCount = 0) ∧
    1 ≤ l.maxActivations

theorem checkDeviceBinding_firstActivation (l : License)
    (fp : DeviceFingerprint) :
    (checkDeviceBinding (some l) fp).isFirstActivation = true ↔
      l.browserFingerprint = none := by
  cases hbf : l.browserFingerprint with
  | none => simp [checkDeviceBinding, hbf]
  | some bound =>
    simp only [checkDeviceBinding, hbf]
    split <;> simp

theorem licenseStep_preserves_inv (l : License) (op : LicenseOp)
    (h : LicenseInv l) : LicenseInv (licenseStep l op) := by
  obtain ⟨hle, hnone, hmax⟩ := h
  cases op with
  | activateOp fp dn ok ip now =>
    simp only [licenseStep, activateRoute]
    split
    · exact ⟨hle, hnone, hmax⟩
    · split
      · split <;> exact ⟨hle, hnone, hmax⟩
      · split
        · exact ⟨hle, hnone, hmax⟩
        · split
          · exact ⟨hle, hnone, hmax⟩
          · split
            · rename_i hquota _
              refine ⟨?_, ?_, hmax⟩
              · show l.activationCount + 1 ≤ l.maxActivations
                omega
              · show some fp.browserFingerprint = none → _
                intro hcontra
                exact absurd hcontra (by simp)
            · exact ⟨hle, hnone, hmax⟩
  | validateOp fp dn ok ip now =>
    simp only [licenseStep, validateRoute]
    split
    · exact ⟨hle, hnone, hmax⟩
    · split
      · exact ⟨hle, hnone, hmax⟩
      · split
        · rename_i hfa
          have hbf := (checkDeviceBinding_firstActivation l fp).mp hfa
          have hzero : l.activationCount = 0 := hnone hbf
          split
          · refine ⟨?_, ?_, hmax⟩
            · show l.activationCount + 1 ≤ l.maxActivations
              omega
            · show some fp.browserFingerprint = none → _
              intro hcontra
              exact absurd hcontra (by simp)
          · exact ⟨hle, hnone, hmax⟩
        · split
          · exact ⟨hle, hnone, hmax⟩
          · exact ⟨hle, hnone, hmax⟩
  | swapOp fp ip now =>
    simp only [licenseStep, deviceSwapRoute]
    split
    · exact ⟨hle, hnone, hmax⟩
    · simp only [requestDeviceSwap]
      cases hbf : l.browserFingerprint with
      | none => exact ⟨hle, hnone, hmax⟩
      | some bound =>
        by_cases hq : l.activationCount ≥ l.maxActivations
        · simp only [hq, ge_iff_le, if_pos, ite_true]
          exact ⟨hle, hnone, hmax⟩
        · simp only [hq, ite_false, if_neg]
          refine ⟨?_, ?_, hmax⟩
          · show l.activationCount + 1 ≤ l.maxActivations
            omega
          · show some fp.browserFingerprint = none → _
            intro hcontra
            exact absurd hcontra (by simp)
  | extActivateOp fp blocked now =>
    simp only [licenseStep, extensionActivateRoute]
    split
    · exact ⟨hle, hnone, hmax⟩
    · split
      · exact ⟨hle, hnone, hmax⟩
      · split
        · refine ⟨hle, ?_, hmax⟩
          show l.browserFingerprint = none → l.activationCount = 0
          exact hnone
        · split
          · exact ⟨hle, hnone, hmax⟩
          · split
            · refine ⟨hle, ?_, hmax⟩
              show some fp.browserFingerprint = none → _
              intro hcontra
              exact absurd hcontra (by simp)
            · exact ⟨hle, hnone, hmax⟩

theorem foldl_licenseStep_inv (ops : List LicenseOp) :
    ∀ l : License, LicenseInv l → LicenseInv (ops.foldl licenseStep l) := by
  induction ops with
  | nil => intro l h; exact h
  | cons op ops ih =>
    intro l h
    exact ih (licenseStep l op) (licenseStep_preserves_inv l op h)

/-- C1: starting from a freshly issued license (count zero, no bound
fingerprint, plan quota at least one), every sequence of activate,
validate, swap and extension-activation operations keeps
`activationCount <= maxActivations`. -/
theorem activationCount_le_maxActivations (ops : List LicenseOp)
    (l0 : License) (hmax : 1 ≤ l0.maxActivations)
    (hcount : l0.activationCount = 0) :
    (ops.foldl licenseStep l0).activationCount ≤
      (ops.foldl licenseStep l0).maxActivations :=
  (foldl_licenseStep_inv ops l0 ⟨by omega, fun _ => hcount, hmax⟩).1

/-- A fresh `MONTHLY`-style license used by the witnesses: quota 1,
nothing bound. -/
def freshLicense : License :=
  { id := "lic-1"
    userId := "user-1"
    userEmail := "user@example.com"
    status := LicenseStatus.INACTIVE
    isBanned := false
    browserFingerprint := none
    hardwareFingerprint := none
    deviceName := none
    activationCount := 0
    maxActivations := 1
    expiresAt := none
    lastValidatedAt := none
    lastValidatedIp := none }

/-- Witness for C1: a validate-route first activation followed by a swap
attempt on a quota-1 license stays within quota. -/
theorem activationCount_le_maxActivations_witness :
    ([LicenseOp.validateOp ⟨"fp-a", none⟩ none true "1.2.3.4" 0,
        LicenseOp.swapOp ⟨"fp-b", none⟩ "1.2.3.4" 1].foldl licenseStep
          freshLicense).activationCount ≤
      ([LicenseOp.validateOp ⟨"fp-a", none⟩ none true "1.2.3.4" 0,
          LicenseOp.swapOp ⟨"fp-b", none⟩ "1.2.3.4" 1].foldl licenseStep
            freshLicense).maxActivations :=
  activationCount_le_maxActivations _ freshLicense (by decide) (by decide)

/-! ## Banned licenses (C3), idempotent re-activation (C9),
device-mismatch codes (C2), lazy expiry (C7) -/

/-- C3: a banned license is rejected by every protected check —
validation, activation, device swap, extension activation and config
delivery — whatever its status, expiry or the supplied fingerprint, and
its state is left unchanged. -/
theorem banned_license_rejected_everywhere (l : License)
    (hban : l.isBanned = true) (secret : String) (fp : DeviceFingerprint)
    (dn : Option String) (bindOk blocked : Bool) (ip : String) (now : Int) :
    validateRoute (some l) fp dn bindOk ip now =
        (ValidateResponse.err "LICENSE_BANNED" none, some l) ∧
      activateRoute secret (some l) fp dn bindOk ip now =
        (ActivateResponse.err "LICENSE_BANNED", some l) ∧
      deviceSwapRoute (some l) fp ip now =
        (SwapResponse.err "LICENSE_INACTIVE", some l) ∧
      extensionActivateRoute secret (some l) fp blocked now =
        (ExtActivateResponse.err "This license has been banned.", some l) ∧
      configRoute (some l) =
        ConfigResponse.err "License is no longer valid" := by
  refine ⟨?_, ?_, ?_, ?_, ?_⟩ <;>
    simp [validateRoute, activateRoute, deviceSwapRoute,
      extensionActivateRoute, configRoute, hban]

/-- A banned license used as the C3 witness: status `ACTIVE`, unexpired,
matching fingerprint — still rejected everywhere. -/
def bannedLicense : License :=
  { id := "lic-2"
    userId := "user-2"
    userEmail := "user2@example.com"
    status := LicenseStatus.ACTIVE
    isBanned := true
    browserFingerprint := some "fp-a"
    hardwareFingerprint := none
    deviceName := some "Laptop"
    activationCount := 1
    maxActivations := 2
    expiresAt := none
    lastValidatedAt := none
    lastValidatedIp := none }

/-- Witness for C3 at a concrete banned license and matching
fingerprint. -/
theorem banned_license_rejected_everywhere_witness :
    validateRoute (some bannedLicense) ⟨"fp-a", none⟩ none true "ip" 0 =
        (ValidateResponse.err "LICENSE_BANNED" none, some bannedLicense) ∧
      activateRoute "secret" (some bannedLicense) ⟨"fp-a", none⟩ none
          true "ip" 0 =
        (ActivateResponse.err "LICENSE_BANNED", some bannedLicense) ∧
      deviceSwapRoute (some bannedLicense) ⟨"fp-a", none⟩ "ip" 0 =
        (SwapResponse.err "LICENSE_INACTIVE", some bannedLicense) ∧
      extensionActivateRoute "secret" (some bannedLicense) ⟨"fp-a", none⟩
          false 0 =
        (ExtActivateResponse.err "This license has been banned.",
          some bannedLicense) ∧
      configRoute (some bannedLicense) =
        ConfigResponse.err "License is no longer valid" :=
  banned_license_rejected_everywhere bannedLicense (by decide) "secret"
    ⟨"fp-a", none⟩ none true false "ip" 0

/-- C9: re-activating an already-`ACTIVE` license from its bound device
succeeds with a freshly issued access token (`iat = now`) and performs no
write to the license. -/
theorem activateRoute_sameDevice_idempotent (secret : String) (l : License)
    (fp : DeviceFingerprint) (dn : Option String) (bindOk : Bool)
    (ip : String) (now : Int) (hban : l.isBanned = false)
    (hst : l.status = LicenseStatus.ACTIVE)
    (hfp : l.browserFingerprint = some fp.browserFingerprint) :
    activateRoute secret (some l) fp dn bindOk ip now =
        (ActivateResponse.ok
          (signAccessToken secret ⟨l.id, l.userId, some l.userEmail⟩ now),
          some l) ∧
      (signAccessToken secret ⟨l.id, l.userId, some l.userEmail⟩ now).iat =
        now := by
  constructor
  · simp [activateRoute, hban, hst, hfp]
  · rfl

/-- An `ACTIVE` license bound to `fp-a` for the C9 witness. -/
def activeLicense : License :=
  { id := "lic-3"
    userId := "user-3"
    userEmail := "user3@example.com"
    status := LicenseStatus.ACTIVE
    isBanned := false
    browserFingerprint := some "fp-a"
    hardwareFingerprint := none
    deviceName := some "Laptop"
    activationCount := 1
    maxActivations := 2
    expiresAt := none
    lastValidatedAt := none
    lastValidatedIp := none }

/-- Witness for C9 at a concrete `ACTIVE` license and its bound
fingerprint. -/
theorem activateRoute_sameDevice_idempotent_witness :
    activateRoute "secret" (some activeLicense) ⟨"fp-a", none⟩ none true
        "ip" 7 =
        (ActivateResponse.ok
          (signAccessToken "secret"
            ⟨"lic-3", "user-3", some "user3@example.com"⟩ 7),
          some activeLicense) ∧
      (signAccessToken "secret"
          ⟨"lic-3", "user-3", some "user3@example.com"⟩ 7).iat = 7 :=
  activateRoute_sameDevice_idempotent "secret" activeLicense ⟨"fp-a", none⟩
    none true "ip" 7 (by decide) (by decide) (by decide)

/-- An `ACTIVE` license with its quota exhausted
(`activationCount = maxActivations = 2`), bound to `fp-a`: the C2
counterexample input. -/
def exhaustedLicense : License :=
  { id := "lic-4"
    userId := "user-4"
    userEmail := "user4@example.com"
    status := LicenseStatus.ACTIVE
    isBanned := false
    browserFingerprint := some "fp-a"
    hardwareFingerprint := none
    deviceName := some "Laptop"
    activationCount := 2
    maxActivations := 2
    expiresAt := none
    lastValidatedAt := none
    lastValidatedIp := none }

/-- C2 counterexample: with `activationCount >= maxActivations`, a
validate call from a non-matching fingerprint still answers with the
error code `DEVICE_MISMATCH` (carrying `canSwap = false`,
`swapsRemaining = 0`), not `MAX_ACTIVATIONS_REACHED` as the claim
states — even though `checkDeviceBinding` itself reports
`MAX_ACTIVATIONS_REACHED`. -/
theorem validateRoute_mismatch_code_counterexample :
    exhaustedLicense.activationCount ≥ exhaustedLicense.maxActivations ∧
      (checkDeviceBinding (some exhaustedLicense) ⟨"fp-b", none⟩).errorCode =
        some "MAX_ACTIVATIONS_REACHED" ∧
      (validateRoute (some exhaustedLicense) ⟨"fp-b", none⟩ none true "ip"
          0).1 =
        ValidateResponse.err "DEVICE_MISMATCH" (some ⟨"Laptop", false, 0⟩) := by
  refine ⟨by decide, by decide, by decide⟩

/-- C2 as amended: on a fingerprint mismatch against an unexpired,
unbanned license, `checkDeviceBinding` reports `DEVICE_MISMATCH` while a
swap is still possible and `MAX_ACTIVATIONS_REACHED` once the quota is
exhausted, the license state is unchanged, and the validate route's HTTP
error code is `DEVICE_MISMATCH` in both cases with
`canSwap`/`swapsRemaining` carrying the distinction. -/
theorem validateRoute_mismatch_behaviour (l : License)
    (fp : DeviceFingerprint) (bound : String) (dn : Option String)
    (bindOk : Bool) (ip : String) (now : Int)
    (hban : l.isBanned = false) (hst : l.status ≠ LicenseStatus.EXPIRED)
    (hexp : expiryPassed l now = false)
    (hbf : l.browserFingerprint = some bound)
    (hne : bound ≠ fp.browserFingerprint) :
    (checkDeviceBinding (some l) fp).errorCode =
        some (if l.activationCount < l.maxActivations then "DEVICE_MISMATCH"
          else "MAX_ACTIVATIONS_REACHED") ∧
      validateRoute (some l) fp dn bindOk ip now =
        (ValidateResponse.err "DEVICE_MISMATCH"
            (some ⟨l.deviceName.getD "Unknown Device",
              decide (l.activationCount < l.maxActivations),
              max 0 ((l.maxActivations : Int) - l.activationCount)⟩),
          some l) := by
  have hcdb : checkDeviceBinding (some l) fp =
      ⟨false, false, decide (l.activationCount < l.maxActivations),
        max 0 ((l.maxActivations : Int) - l.activationCount), l.deviceName,
        some (if l.activationCount < l.maxActivations then "DEVICE_MISMATCH"
          else "MAX_ACTIVATIONS_REACHED")⟩ := by
    simp [checkDeviceBinding, hbf, hne]
  constructor
  · rw [hcdb]
  · simp [validateRoute, hban, hst, hexp, hcdb]

/-- Witness for the amended C2 at both a swap-possible and an exhausted
license. -/
theorem validateRoute_mismatch_behaviour_witness :
    ((checkDeviceBinding (some activeLicense) ⟨"fp-b", none⟩).errorCode =
        some (if activeLicense.activationCount <
            activeLicense.maxActivations then "DEVICE_MISMATCH"
          else "MAX_ACTIVATIONS_REACHED") ∧
      validateRoute (some activeLicense) ⟨"fp-b", none⟩ none true "ip" 0 =
        (ValidateResponse.err "DEVICE_MISMATCH"
            (some ⟨activeLicense.deviceName.getD "Unknown Device",
              decide (activeLicense.activationCount <
                activeLicense.maxActivations),
              max 0 ((activeLicense.maxActivations : Int) -
                activeLicense.activationCount)⟩),
          some activeLicense)) ∧
      (checkDeviceBinding (some exhaustedLicense) ⟨"fp-b", none⟩).errorCode =
        some (if exhaustedLicense.activationCount <
            exhaustedLicense.maxActivations then "DEVICE_MISMATCH"
          else "MAX_ACTIVATIONS_REACHED") :=
  ⟨validateRoute_mismatch_behaviour activeLicense ⟨"fp-b", none⟩ "fp-a"
      none true "ip" 0 (by decide) (by decide) (by decide) (by decide)
      (by decide),
    (validateRoute_mismatch_behaviour exhaustedLicense ⟨"fp-b", none⟩
      "fp-a" none true "ip" 0 (by decide) (by decide) (by decide)
      (by decide) (by decide)).1⟩

/-- An `ACTIVE` license whose `expiresAt` is already in the past: the C7
counterexample input. -/
def staleLicense : License :=
  { id := "lic-5"
    userId := "user-5"
    userEmail := "user5@example.com"
    status := LicenseStatus.ACTIVE
    isBanned := false
    browserFingerprint := some "fp-a"
    hardwareFingerprint := none
    deviceName := some "Laptop"
    activationCount := 1
    maxActivations := 2
    expiresAt := some (-10)
    lastValidatedAt := none
    lastValidatedIp := none }

/-- C7 counterexample: the validate route rejects a past-expiry license
with `LICENSE_EXPIRED` but returns the license state unchanged — its
status is still `ACTIVE`, so the `EXPIRED` transition is not persisted
on this validation-path read. -/
theorem validateRoute_expiry_not_persisted_counterexample :
    staleLicense.expiresAt = some (-10) ∧
      staleLicense.status = LicenseStatus.ACTIVE ∧
      validateRoute (some staleLicense) ⟨"fp-a", none⟩ none true "ip" 0 =
        (ValidateResponse.err "LICENSE_EXPIRED" none, some staleLicense) ∧
      staleLicense.status ≠ LicenseStatus.EXPIRED := by
  refine ⟨rfl, rfl, by decide, by decide⟩

/-- C7 as amended: on a past `expiresAt`, the extension-activation read
path persists `status = EXPIRED` before returning its error, while the
HMAC validate route rejects with `LICENSE_EXPIRED` without persisting
the transition. -/
theorem expiry_lazy_transition (secret : String) (l : License) (e : Int)
    (fp : DeviceFingerprint) (dn : Option String)
    (bindOk blocked : Bool) (ip : String) (now : Int)
    (hban : l.isBanned = false) (hst : l.status ≠ LicenseStatus.EXPIRED)
    (hexp : l.expiresAt = some e) (hpast : e < now) :
    extensionActivateRoute secret (some l) fp blocked now =
        (ExtActivateResponse.err "This license has expired.",
          some { l with status := LicenseStatus.EXPIRED }) ∧
      validateRoute (some l) fp dn bindOk ip now =
        (ValidateResponse.err "LICENSE_EXPIRED" none, some l) := by
  have hpassed : expiryPassed l now = true := by
    simp [expiryPassed, hexp, hpast]
  constructor
  · simp [extensionActivateRoute, hban, hst, hpassed]
  · simp [validateRoute, hban, hpassed]

/-- Witness for the amended C7 at the concrete stale license. -/
theorem expiry_lazy_transition_witness :
    extensionActivateRoute "secret" (some staleLicense) ⟨"fp-a", none⟩
        false 0 =
        (ExtActivateResponse.err "This license has expired.",
          some { staleLicense with status := LicenseStatus.EXPIRED }) ∧
      validateRoute (some staleLicense) ⟨"fp-a", none⟩ none true "ip" 0 =
        (ValidateResponse.err "LICENSE_EXPIRED" none, some staleLicense) :=
  expiry_lazy_transition "secret" staleLicense (-10) ⟨"fp-a", none⟩ none
    true false "ip" 0 (by decide) (by decide) (by decide) (by decide)

end SlotHunter
